import Mathlib

/-!
Verification of the node-graph data-flow core of the visual pipeline editor.

The definitions below are a shallow embedding of the TypeScript source:

* `DataSchema`, `PortConfig`, `isValidConnection` — `NodeEditor.tsx`
* `NodeData`, `StoreState`, `updateNodeData`, `getNodeData`, `subscribeToNode`
  — `NodeDataContext.tsx`

Opaque runtime values (Three.js objects, textures, image data URLs) are
modelled as `String` handles: the data-flow core never inspects them, it only
stores, compares and forwards them.  Timestamps (`Date.now()`) are modelled as
an explicit `now : Nat` argument.  Effects are made explicit: a store
operation returns the new store state together with the list of subscriber
invocations (callback identifier paired with the payload it receives) that the
call performs synchronously.
-/

/-- Schemas of values traveling on ports (the `DataSchemas` constant of
`NodeEditor.tsx`). -/
inductive DataSchema where
  | MODEL_3D
  | SKYBOX_TEXTURE
  | RENDERED_IMAGE
  | ENHANCED_IMAGE
  | GENERATED_VIDEO
  | TEXT
deriving DecidableEq

/-- Side of a handle on a card (the `position : 'left' | 'right'` field of
`PortConfig` in `NodeEditor.tsx`); `left` is an input, `right` an output. -/
inductive HandleSide where
  | left
  | right
deriving DecidableEq

/-- Port configuration (`PortConfig` interface of `NodeEditor.tsx`). -/
structure PortConfig where
  id : String
  label : String
  schema : DataSchema
  position : HandleSide
deriving DecidableEq

/-- Validation predicate for two ports (`isValidConnection` in
`NodeEditor.tsx`): schemas must agree and the sides must differ. -/
def isValidConnection (source target : PortConfig) : Bool :=
  source.schema == target.schema && source.position != target.position

/-- Entry of the node data store (`NodeData` interface of
`NodeDataContext.tsx`).  Payload fields are opaque handles. -/
structure NodeData where
  model : Option String := none
  skyboxTexture : Option String := none
  renderedImage : Option String := none
  enhancedImage : Option String := none
  timestamp : Option Nat := none
deriving DecidableEq

/-- Partial payload passed to `updateNodeData` (`Partial<NodeData>` in the
source).  A field equal to `some v` is present in the object literal and
overrides the stored entry; `none` means the key is absent.  A `timestamp`
field is not modelled because `updateNodeData` always overwrites it. -/
structure NodeDataPatch where
  model : Option String := none
  skyboxTexture : Option String := none
  renderedImage : Option String := none
  enhancedImage : Option String := none
deriving DecidableEq

/-- JavaScript spread merge `{...prev, ...data, timestamp: Date.now()}`
performed by `updateNodeData` in `NodeDataContext.tsx`. -/
def applyPatch (prev : NodeData) (p : NodeDataPatch) (now : Nat) : NodeData where
  model := p.model <|> prev.model
  skyboxTexture := p.skyboxTexture <|> prev.skyboxTexture
  renderedImage := p.renderedImage <|> prev.renderedImage
  enhancedImage := p.enhancedImage <|> prev.enhancedImage
  timestamp := some now

/-- State owned by `NodeDataProvider` in `NodeDataContext.tsx`: the
`nodeData` record (node id to latest entry) and the `subscribersRef` record
(node id to registered callbacks, in registration order).  Callbacks are
modelled by opaque numeric identifiers. -/
structure StoreState where
  nodeData : String → Option NodeData
  subscribers : String → List Nat

/-- Initial provider state: `useState({})` and `useRef({})`. -/
def emptyStore : StoreState where
  nodeData := fun _ => none
  subscribers := fun _ => []

/-- `updateNodeData(nodeId, data)` of `NodeDataContext.tsx`: merge the partial
payload into the node's current entry (an absent entry spreads as the empty
object), stamp the current time, synchronously invoke every subscriber
registered for `nodeId` with the merged entry, and store the merged entry.
The returned list records the synchronous callback invocations in order. -/
def updateNodeData (s : StoreState) (nodeId : String) (p : NodeDataPatch) (now : Nat) :
    StoreState × List (Nat × NodeData) :=
  let newData := applyPatch ((s.nodeData nodeId).getD {}) p now
  let invocations := (s.subscribers nodeId).map (fun cb => (cb, newData))
  ({ s with nodeData := fun k => if k = nodeId then some newData else s.nodeData k },
   invocations)

/-- `getNodeData(nodeId)` of `NodeDataContext.tsx`: return the stored entry,
or `none` when nothing has been published for this id. -/
def getNodeData (s : StoreState) (nodeId : String) : Option NodeData :=
  s.nodeData nodeId

/-- `subscribeToNode(nodeId, callback)` of `NodeDataContext.tsx`: append the
callback to the node's subscriber list.  No callback is invoked at
subscription time, hence the returned invocation list is empty. -/
def subscribeToNode (s : StoreState) (nodeId : String) (cb : Nat) :
    StoreState × List (Nat × NodeData) :=
  ({ s with subscribers := fun k =>
      if k = nodeId then s.subscribers k ++ [cb] else s.subscribers k },
   [])

/-- Node types of the editor (the keys of the `nodeTypes` record in
`NodeEditor.tsx`). -/
inductive NodeType where
  | modelLoader
  | skyboxGenerator
  | sceneRenderer
  | aiImageEnhancer
  | aiEnhancedImage
  | aiVideoGenerator
  | videoPlayer
  | genAIClip
deriving DecidableEq

/-- Graph node (`Node` of reactflow as used by `NodeEditor.tsx`: id, type,
position and the `data.label` field). -/
structure GraphNode where
  id : String
  type : NodeType
  position : Int × Int
  label : String
deriving DecidableEq

/-- Graph edge (`Edge` of reactflow as used by this app: every edge carries
explicit source/target handle ids, so the optional handles of the library are
modelled as plain strings). -/
structure Edge where
  id : String
  source : String
  sourceHandle : String
  target : String
  targetHandle : String
deriving DecidableEq

/-- Connection parameters handed to `onConnect` by reactflow (no id yet). -/
structure Connection where
  source : String
  sourceHandle : String
  target : String
  targetHandle : String
deriving DecidableEq

/-- Embedding of the reactflow v11 library helper `getEdgeId`: the generated
id concatenates source, source handle, target and target handle. -/
def getEdgeId (c : Connection) : String :=
  "reactflow__edge-" ++ c.source ++ c.sourceHandle ++ "-" ++ c.target ++ c.targetHandle

/-- Embedding of the reactflow v11 library helper `connectionExists`: an edge
with the same endpoints and handles is already present.  (The library's
special case for null handles collapses to plain equality under the
all-handles-present model.) -/
def connectionExists (e : Edge) (eds : List Edge) : Bool :=
  eds.any (fun el => el.source == e.source && el.target == e.target &&
    el.sourceHandle == e.sourceHandle && el.targetHandle == e.targetHandle)

/-- Embedding of the reactflow v11 library helper `addEdge` applied to an
edge that already carries an id: ignore degenerate parameters, drop
duplicates, otherwise append. -/
def reactflowAddEdge (e : Edge) (eds : List Edge) : List Edge :=
  if e.source = "" || e.target = "" then eds
  else if connectionExists e eds then eds
  else eds ++ [e]

/-- Embedding of the reactflow v11 library helper `addEdge` applied to
connection parameters: an id is generated by `getEdgeId`. -/
def reactflowAddEdgeConn (c : Connection) (eds : List Edge) : List Edge :=
  reactflowAddEdge
    { id := getEdgeId c, source := c.source, sourceHandle := c.sourceHandle,
      target := c.target, targetHandle := c.targetHandle } eds

/-- Kind of the handle a drag starts from (`handleType` in reactflow):
`source` is an output handle, `target` an input handle. -/
inductive HandleType where
  | source
  | target
deriving DecidableEq

/-- Origin of an in-progress connection drag (the `connectionInProgress`
state of `NodeEditor.tsx`). -/
structure HandleRef where
  nodeId : String
  handleId : String
  handleType : HandleType
deriving DecidableEq

/-- Origin information remembered by the drag-opened context menu (the
`sourceHandle` field of the `contextMenu` state in `NodeEditor.tsx`). -/
structure SourceHandleInfo where
  nodeId : String
  handleId : String
  handleType : HandleType
  schema : Option DataSchema
deriving DecidableEq

/-- Context-menu state of `NodeEditor.tsx` (position plus optional drag
origin). -/
structure ContextMenuState where
  x : Int
  y : Int
  sourceHandle : Option SourceHandleInfo
deriving DecidableEq

/-- Complete interactive state of the `NodeEditor` component. -/
structure EditorState where
  nodes : List GraphNode
  edges : List Edge
  contextMenu : Option ContextMenuState
  connectionInProgress : Option HandleRef
  removedEdges : List Edge
deriving DecidableEq

/-- Initial editor state (`initialNodes` / `initialEdges` of
`NodeEditor.tsx`): one default model-loader node with id `"1"`. -/
def initialEditor : EditorState where
  nodes := [{ id := "1", type := .modelLoader, position := (100, 100), label := "3D Model Loader" }]
  edges := []
  contextMenu := none
  connectionInProgress := none
  removedEdges := []

/-- Substring test mirroring JavaScript `String.prototype.includes`. -/
def strIncludes (s pat : String) : Bool :=
  decide (pat.data <:+: s.data)

/-- Schema inferred from a handle id by the substring chain used in
`onConnectStart` / `onConnectEnd` of `NodeEditor.tsx`. -/
def schemaFromHandleId (handleId : String) : Option DataSchema :=
  if strIncludes handleId ("model") then some .MODEL_3D
  else if strIncludes handleId ("skybox") then some .SKYBOX_TEXTURE
  else if strIncludes handleId ("render") then some .RENDERED_IMAGE
  else if strIncludes handleId ("enhanced") then some .ENHANCED_IMAGE
  else if strIncludes handleId ("video") then some .GENERATED_VIDEO
  else if strIncludes handleId ("text") then some .TEXT
  else none

/-- Does the edge attach to the given origin handle?  This is the predicate
used both to collect existing edges in `onConnectStart` and to detect a newly
attached connection in `onConnectEnd` of `NodeEditor.tsx`. -/
def matchesHandle (h : HandleRef) (e : Edge) : Bool :=
  match h.handleType with
  | .source => e.source == h.nodeId && e.sourceHandle == h.handleId
  | .target => e.target == h.nodeId && e.targetHandle == h.handleId

/-- `onConnect` of `NodeEditor.tsx`: insert the connection via the library
`addEdge` helper (no schema validation is performed here) and clear the
provisional buffer. -/
def onConnect (s : EditorState) (params : Connection) : EditorState :=
  { s with edges := reactflowAddEdgeConn params s.edges, removedEdges := [] }

/-- `onConnectStart` of `NodeEditor.tsx`: remember the origin and, when the
origin handle already has connections, detach them provisionally into the
`removedEdges` buffer.  (The JavaScript `includes` test against the collected
array compares references, which is equivalent to re-testing the matching
predicate.)  The `schema` local computed by the source here is unused. -/
def onConnectStart (s : EditorState) (h : HandleRef) : EditorState :=
  let existingEdges := s.edges.filter (matchesHandle h)
  let s1 := { s with connectionInProgress := some h }
  if existingEdges.isEmpty then s1
  else { s1 with removedEdges := existingEdges,
                 edges := s1.edges.filter (fun e => !(matchesHandle h e)) }

/-- Where a connection drag ended, as classified by the DOM checks of
`onConnectEnd` in `NodeEditor.tsx`. -/
inductive DropTarget where
  | emptyCanvas
  | handleOrNode
deriving DecidableEq

/-- Restoration step of `onConnectEnd` in `NodeEditor.tsx`: when the buffer
is non-empty, re-append the detached edges unless a new edge has already been
attached to the exact origin node/handle. -/
def restoreIfNoNewConnection (h : HandleRef) (removed eds : List Edge) : List Edge :=
  if removed.isEmpty then eds
  else if eds.any (matchesHandle h) then eds
  else eds ++ removed

/-- `onConnectEnd` of `NodeEditor.tsx`.  Over empty canvas it opens the
context menu, remembering the origin and its schema; otherwise it runs the
guarded restoration of the provisional buffer.  (Clearing `removedEdges` when
the buffer is already empty is a no-op, matching the source's guard.) -/
def onConnectEnd (s : EditorState) (drop : DropTarget) (dropPos : Int × Int) : EditorState :=
  match s.connectionInProgress with
  | none => s
  | some h =>
    match drop with
    | .emptyCanvas =>
        let info : SourceHandleInfo :=
          { nodeId := h.nodeId, handleId := h.handleId, handleType := h.handleType,
            schema := schemaFromHandleId h.handleId }
        { s with
          contextMenu := some { x := dropPos.1, y := dropPos.2, sourceHandle := some info },
          connectionInProgress := none }
    | .handleOrNode =>
        { s with
          edges := restoreIfNoNewConnection h s.removedEdges s.edges,
          removedEdges := [],
          connectionInProgress := none }

/-- `onPaneClick` of `NodeEditor.tsx`: ignore the click while the
`justOpenedContextMenu` flag is set, otherwise close the context menu.  This
is the only dismissal path of the menu and it does not touch the edges or the
provisional buffer. -/
def onPaneClick (s : EditorState) (justOpened : Bool) : EditorState :=
  if justOpened then s else { s with contextMenu := none }

/-- `onClose` prop handed to the context menu in `NodeEditor.tsx`: close the
menu and restore the provisional buffer unconditionally when it is non-empty.
The `ContextMenu` component invokes this prop only from `handleAddNode`,
after a node type has been selected. -/
def contextMenuClose (s : EditorState) : EditorState :=
  { s with contextMenu := none,
           edges := if s.removedEdges.isEmpty then s.edges else s.edges ++ s.removedEdges,
           removedEdges := [] }

/-- Input handle id synthesized from the origin schema by `addNode` in
`NodeEditor.tsx` (drag from an output handle); stays empty when no schema was
inferred. -/
def inputHandleForSchema : Option DataSchema → String
  | some .MODEL_3D => "model-input"
  | some .SKYBOX_TEXTURE => "skybox-input"
  | some .RENDERED_IMAGE => "rendered-image-input"
  | some .ENHANCED_IMAGE => "enhanced-image-input"
  | some .GENERATED_VIDEO => "video-input"
  | some .TEXT => "text-input"
  | none => ""

/-- Output handle id synthesized from the origin schema by `addNode` in
`NodeEditor.tsx` (drag from an input handle). -/
def outputHandleForSchema : Option DataSchema → String
  | some .MODEL_3D => "model-output"
  | some .SKYBOX_TEXTURE => "skybox-output"
  | some .RENDERED_IMAGE => "render-output"
  | some .ENHANCED_IMAGE => "enhanced-output"
  | some .GENERATED_VIDEO => "video-output"
  | some .TEXT => "text-output"
  | none => ""

/-- Label given to a freshly created node by `addNode` in `NodeEditor.tsx`. -/
def nodeLabel : NodeType → String
  | .modelLoader => "3D Model Loader"
  | .skyboxGenerator => "Skybox Generator"
  | .sceneRenderer => "Scene Renderer"
  | _ => "Node"

/-- Node id generated by `addNode` in `NodeEditor.tsx`: the decimal rendering
of `Date.now()` (milliseconds). -/
def genNodeId (now : Nat) : String :=
  Nat.repr now

/-- Edge id generated by the edge synthesis of `addNode` in `NodeEditor.tsx`. -/
def genEdgeId (now : Nat) : String :=
  "edge-" ++ Nat.repr now

/-- `addNode` of `NodeEditor.tsx`: append a new node (id from the clock) and,
when the context menu was opened from a drag, synthesize one edge between the
drag origin and a handle id derived from the origin schema; finally close the
menu and discard the provisional buffer.  The viewport transform
`screenToFlowPosition` of the library is modelled as the identity, and the
edge synthesis the source defers by a zero timeout is performed in place
(sequential-state semantics). -/
def addNode (s : EditorState) (ty : NodeType) (pos : Int × Int) (now : Nat) : EditorState :=
  let newNodeId := genNodeId now
  let newNode : GraphNode := { id := newNodeId, type := ty, position := pos, label := nodeLabel ty }
  let s1 := { s with nodes := s.nodes ++ [newNode] }
  let s2 :=
    match s.contextMenu with
    | some cm =>
      match cm.sourceHandle with
      | some sh =>
        let newEdge : Edge :=
          match sh.handleType with
          | .source =>
            { id := genEdgeId now, source := sh.nodeId, sourceHandle := sh.handleId,
              target := newNodeId, targetHandle := inputHandleForSchema sh.schema }
          | .target =>
            { id := genEdgeId now, source := newNodeId,
              sourceHandle := outputHandleForSchema sh.schema,
              target := sh.nodeId, targetHandle := sh.handleId }
        { s1 with edges := reactflowAddEdge newEdge s1.edges }
      | none => s1
    | none => s1
  { s2 with contextMenu := none, removedEdges := [] }

/-- Input ports declared by each card component (the `inputs` arrays of the
card files). -/
def nodeInputs : NodeType → List PortConfig
  | .modelLoader => []
  | .skyboxGenerator => []
  | .sceneRenderer =>
      [{ id := "model-input", label := "Model", schema := .MODEL_3D, position := .left },
       { id := "skybox-input", label := "Skybox", schema := .SKYBOX_TEXTURE, position := .left }]
  | .aiImageEnhancer =>
      [{ id := "base-image-input", label := "Base Image", schema := .RENDERED_IMAGE, position := .left }]
  | .aiEnhancedImage =>
      [{ id := "rendered-image-input", label := "Rendered Image", schema := .RENDERED_IMAGE, position := .left }]
  | .aiVideoGenerator =>
      [{ id := "first-frame-input", label := "First Frame", schema := .ENHANCED_IMAGE, position := .left }]
  | .videoPlayer =>
      [{ id := "video-input", label := "Video Data", schema := .GENERATED_VIDEO, position := .left }]
  | .genAIClip =>
      [{ id := "enhanced-image-input", label := "Enhanced Image", schema := .ENHANCED_IMAGE, position := .left }]

/-- Output ports declared by each card component (the `outputs` arrays of the
card files). -/
def nodeOutputs : NodeType → List PortConfig
  | .modelLoader =>
      [{ id := "model-output", label := "Model Data", schema := .MODEL_3D, position := .right }]
  | .skyboxGenerator =>
      [{ id := "skybox-output", label := "Environment Texture", schema := .SKYBOX_TEXTURE, position := .right }]
  | .sceneRenderer =>
      [{ id := "render-output", label := "Rendered Image", schema := .RENDERED_IMAGE, position := .right }]
  | .aiImageEnhancer =>
      [{ id := "enhanced-image-output", label := "Enhanced Image", schema := .ENHANCED_IMAGE, position := .right }]
  | .aiEnhancedImage =>
      [{ id := "enhanced-image-output", label := "Enhanced Image", schema := .ENHANCED_IMAGE, position := .right }]
  | .aiVideoGenerator =>
      [{ id := "video-output", label := "Generated Video", schema := .GENERATED_VIDEO, position := .right }]
  | .videoPlayer => []
  | .genAIClip =>
      [{ id := "video-output", label := "Generated Video", schema := .GENERATED_VIDEO, position := .right }]

/-- Input-schema declarations of the context menu's compatibility filter (the
`cardInputSchemas` record of `ContextMenu.tsx`; node types absent from the
record yield the empty list). -/
def cardInputSchemas : NodeType → List DataSchema
  | .sceneRenderer => [.MODEL_3D, .SKYBOX_TEXTURE]
  | .aiImageEnhancer => [.RENDERED_IMAGE]
  | .aiEnhancedImage => [.RENDERED_IMAGE]
  | .aiVideoGenerator => [.ENHANCED_IMAGE]
  | .videoPlayer => [.GENERATED_VIDEO]
  | .genAIClip => [.TEXT]
  | _ => []

/-- Output-schema declarations of the context menu's compatibility filter
(the `cardOutputSchemas` record of `ContextMenu.tsx`). -/
def cardOutputSchemas : NodeType → List DataSchema
  | .modelLoader => [.MODEL_3D]
  | .skyboxGenerator => [.SKYBOX_TEXTURE]
  | .sceneRenderer => [.RENDERED_IMAGE]
  | .aiImageEnhancer => [.ENHANCED_IMAGE]
  | .aiEnhancedImage => [.ENHANCED_IMAGE]
  | .aiVideoGenerator => [.GENERATED_VIDEO]
  | .genAIClip => [.TEXT]
  | .videoPlayer => []

/-- All node types offered by the context menu, in menu order
(`allNodeTypes` of `ContextMenu.tsx`). -/
def allNodeTypes : List NodeType :=
  [.modelLoader, .skyboxGenerator, .sceneRenderer, .aiImageEnhancer,
   .aiEnhancedImage, .aiVideoGenerator, .videoPlayer, .genAIClip]

/-- `getCompatibleNodeTypes` of `ContextMenu.tsx`: with a drag origin and a
known schema, keep the node types whose declared complementary schemas
contain the origin schema; otherwise show every type. -/
def getCompatibleNodeTypes (sourceHandle : Option SourceHandleInfo) : List NodeType :=
  match sourceHandle with
  | none => allNodeTypes
  | some sh =>
    match sh.schema with
    | none => allNodeTypes
    | some schema =>
      match sh.handleType with
      | .source => allNodeTypes.filter (fun t => (cardInputSchemas t).contains schema)
      | .target => allNodeTypes.filter (fun t => (cardOutputSchemas t).contains schema)

/-- `handleAddNode` of `ContextMenu.tsx`: create the node at the menu
position offset by (-100, -50), then invoke the menu's `onClose` handler. -/
def handleAddNode (s : EditorState) (ty : NodeType) (now : Nat) : EditorState :=
  match s.contextMenu with
  | some cm => contextMenuClose (addNode s ty (cm.x - 100, cm.y - 50) now)
  | none => s

/-- API keys read from persistent storage (`getAPIKeys` in `apiConfig`);
an absent key is `none`. -/
structure APIKeys where
  geminiApiKey : Option String := none
  replicateApiKey : Option String := none
deriving DecidableEq

/-- Request shape of the image-to-image service (`ImageToImageRequest` in
`genAI.ts`). -/
structure ImageToImageRequest where
  baseImage : String
  prompt : String
  provider : Option String := none
deriving DecidableEq

/-- Response shape of the image-to-image service (`ImageToImageResponse` in
`genAI.ts`): always a value with a success flag, never a thrown exception. -/
structure ImageToImageResponse where
  imageUrl : String
  success : Bool
  error : Option String := none
deriving DecidableEq

/-- `enhanceWithGemini` of `genAI.ts`.  Its entire body is wrapped in
try/catch: the external fetch/parse outcome is passed in as an `Except`, an
`ok` data URL yields a success response and any caught error yields a failure
response carrying the original image — the function never throws. -/
def enhanceWithGemini (baseImage _prompt _apiKey : String)
    (fetchOutcome : Except String String) : ImageToImageResponse :=
  match fetchOutcome with
  | .ok url => { imageUrl := url, success := true }
  | .error msg => { imageUrl := baseImage, success := false, error := some msg }

/-- `mockEnhanceSceneWithAI` of `genAI.ts` (dev mode).  Its body is likewise
wrapped in try/catch around external canvas work, passed in as an `Except`;
it also never throws. -/
def mockEnhanceSceneWithAI (baseImage _prompt : String)
    (canvasOutcome : Except String String) : ImageToImageResponse :=
  match canvasOutcome with
  | .ok img => { imageUrl := img, success := true }
  | .error msg => { imageUrl := baseImage, success := false, error := some msg }

/-- `enhanceSceneWithAI` of `genAI.ts`: dev mode delegates to the mock; a
missing Gemini key short-circuits to a failure response; the gemini provider
delegates to `enhanceWithGemini`; an unknown provider yields a failure
response.  Every branch returns a response value — no branch throws. -/
def enhanceSceneWithAI (keys : APIKeys) (request : ImageToImageRequest) (isDevMode : Bool)
    (mockOutcome geminiOutcome : Except String String) : ImageToImageResponse :=
  if isDevMode then
    mockEnhanceSceneWithAI request.baseImage request.prompt mockOutcome
  else
    match keys.geminiApiKey with
    | none =>
        { imageUrl := request.baseImage, success := false,
          error := some ("Gemini API key not found") }
    | some key =>
        let provider :=
          match request.provider with
          | none => "gemini"
          | some p => if p = "" then "gemini" else p
        if provider = "gemini" then
          enhanceWithGemini request.baseImage request.prompt key geminiOutcome
        else
          { imageUrl := request.baseImage, success := false,
            error := some ("Provider " ++ provider ++ " not implemented") }

/-- Fixed enhancement prompt used by `AIEnhancedImageCard.handleEnhance`. -/
def enhancePrompt : String :=
  "Make this image look photorealistic, and all the objects and background environments fit together seamlessly. Enhance the lighting, materials, and overall visual quality to create a stunning, realistic render."

/-- Local state of `AIEnhancedImageCard`: the dedup marker
`lastProcessedImageRef`, the in-flight flag `isEnhancingRef`/`isEnhancing`
(always toggled together), and the displayed images. -/
structure CardState where
  lastProcessed : Option String := none
  isEnhancing : Bool := false
  baseImage : Option String := none
  enhancedImage : Option String := none
deriving DecidableEq

/-- Synchronous prefix of `AIEnhancedImageCard.handleEnhance` (the guard and
the marking that run before the awaited service call).  Returns the new state
and whether an enhancement computation was started. -/
def handleEnhanceStart (s : CardState) (imageToEnhance : String) : CardState × Bool :=
  if imageToEnhance = "" || s.isEnhancing || s.lastProcessed == some imageToEnhance then
    (s, false)
  else
    ({ s with lastProcessed := some imageToEnhance, isEnhancing := true,
              enhancedImage := none },
     true)

/-- Continuation of `AIEnhancedImageCard.handleEnhance` after the awaited
`enhanceSceneWithAI` call returns a response value (success or failure), plus
the `finally` block.  On success (with a non-empty url, per the truthiness
test) the enhanced image is stored and published for the card's node id; on a
failure response nothing else happens — in particular the dedup marker is NOT
touched, because the `catch` block only runs for thrown exceptions.  Returns
the new state and the store publications performed. -/
def handleEnhanceFinish (nodeId : String) (s : CardState) (result : ImageToImageResponse) :
    CardState × List (String × NodeDataPatch) :=
  let withResult :=
    if result.success && result.imageUrl != "" then
      ({ s with enhancedImage := some result.imageUrl },
       if nodeId = "" then ([] : List (String × NodeDataPatch))
       else [(nodeId, { enhancedImage := some result.imageUrl })])
    else (s, [])
  ({ withResult.1 with isEnhancing := false }, withResult.2)

/-- The `catch` block of `AIEnhancedImageCard.handleEnhance` plus the
`finally` block: clear the dedup marker so the payload can be retried.  It is
reachable only when the awaited call throws, which the embedded total
`enhanceSceneWithAI` never does. -/
def handleEnhanceCatch (s : CardState) : CardState :=
  { s with lastProcessed := none, isEnhancing := false }

/-- Subscription callback of `AIEnhancedImageCard` (and the identical
check-existing-data branch): on a payload carrying a (truthy) rendered image
over the `rendered-image-input` edge, remember it as the base image and
trigger `handleEnhance` unless the image equals the dedup marker.  Returns
the new state and whether a computation was started. -/
def onSourceUpdate (s : CardState) (edgeTargetHandle : String) (nd : NodeData) :
    CardState × Bool :=
  match nd.renderedImage with
  | some img =>
      if img != "" && edgeTargetHandle == "rendered-image-input" then
        let s1 := { s with baseImage := some img }
        if s1.lastProcessed ≠ some img then handleEnhanceStart s1 img
        else (s1, false)
      else (s, false)
  | none => (s, false)

/-- Decimal digit list underlying `Nat.repr`, expressed through the
mathematical `Nat.digits` function (most significant digit first). -/
def reprDigits (n : Nat) : List Char :=
  if n = 0 then [Nat.digitChar 0] else ((Nat.digits 10 n).map Nat.digitChar).reverse

/-- C2: for every node id `n`, prior entry `e` and partial payload `p`,
`updateNodeData n p` replaces `n`'s entry with the merge of `e` and `p` plus a
fresh timestamp, and synchronously invokes each callback registered for `n`
exactly once, passing the full merged entry, which contains all of `p`'s
fields. -/
theorem C2_publish_merges_and_notifies (s : StoreState) (n : String) (e : NodeData)
    (p : NodeDataPatch) (now : Nat) (he : s.nodeData n = some e) :
    ((updateNodeData s n p now).1.nodeData n = some (applyPatch e p now)) ∧
    ((updateNodeData s n p now).2 = (s.subscribers n).map (fun cb => (cb, applyPatch e p now))) ∧
    (∀ cb : Nat, (((updateNodeData s n p now).2.map Prod.fst).count cb = (s.subscribers n).count cb)) ∧
    ((applyPatch e p now).timestamp = some now) ∧
    (∀ v, p.model = some v → (applyPatch e p now).model = some v) ∧
    (∀ v, p.skyboxTexture = some v → (applyPatch e p now).skyboxTexture = some v) ∧
    (∀ v, p.renderedImage = some v → (applyPatch e p now).renderedImage = some v) ∧
    (∀ v, p.enhancedImage = some v → (applyPatch e p now).enhancedImage = some v) := by
  refine ⟨?_, ?_, ?_, ?_, ?_, ?_, ?_, ?_⟩
  · simp [updateNodeData, he]
  · simp [updateNodeData, he]
  · intro cb
    simp [updateNodeData, List.map_map, Function.comp_def]
  · simp [applyPatch]
  · intro v hv; simp [applyPatch, hv]
  · intro v hv; simp [applyPatch, hv]
  · intro v hv; simp [applyPatch, hv]
  · intro v hv; simp [applyPatch, hv]

/-- Witness for C2 at a concrete store: node `n1` holds an entry with a
rendered image, one callback `7` is registered, and an enhanced image is
published at time `5`. -/
theorem C2_publish_merges_and_notifies_witness :
    (let s : StoreState :=
      { nodeData := fun k => if k = ("n1" : String) then some { renderedImage := some ("r") } else none
        subscribers := fun k => if k = ("n1" : String) then [7] else [] }
     let e : NodeData := { renderedImage := some ("r") }
     let p : NodeDataPatch := { enhancedImage := some ("x") }
     (s.nodeData ("n1") = some e) ∧
     (((updateNodeData s ("n1") p 5).1.nodeData ("n1") = some (applyPatch e p 5)) ∧
      ((updateNodeData s ("n1") p 5).2 = (s.subscribers ("n1")).map (fun cb => (cb, applyPatch e p 5))) ∧
      (∀ cb : Nat, (((updateNodeData s ("n1") p 5).2.map Prod.fst).count cb = (s.subscribers ("n1")).count cb)) ∧
      ((applyPatch e p 5).timestamp = some 5) ∧
      (∀ v, p.model = some v → (applyPatch e p 5).model = some v) ∧
      (∀ v, p.skyboxTexture = some v → (applyPatch e p 5).skyboxTexture = some v) ∧
      (∀ v, p.renderedImage = some v → (applyPatch e p 5).renderedImage = some v) ∧
      (∀ v, p.enhancedImage = some v → (applyPatch e p 5).enhancedImage = some v))) := by
  exact ⟨by decide, C2_publish_merges_and_notifies _ _ _ _ _ (by decide)⟩

/-- C3: registering a subscriber after a node has published does not invoke
the callback at subscription time (no replay) and leaves the stored entries
unchanged; reading after a publish returns the merged latest payload; reading
from the initial store returns `none`.  All operations are total functions:
nothing blocks and no distinct error kind exists. -/
theorem C3_no_replay_and_read_roundtrip (s : StoreState) (n : String) (cb : Nat)
    (p : NodeDataPatch) (now : Nat) :
    ((subscribeToNode s n cb).2 = []) ∧
    ((subscribeToNode s n cb).1.nodeData = s.nodeData) ∧
    (getNodeData (updateNodeData s n p now).1 n =
      some (applyPatch ((s.nodeData n).getD {}) p now)) ∧
    (getNodeData emptyStore n = none) := by
  refine ⟨rfl, rfl, ?_, rfl⟩
  simp [getNodeData, updateNodeData]

/-- C10: publishing to node `n` is frame-local: for `m ≠ n` the stored entry
and the subscriber list of `m` are unchanged, and every synchronous invocation
performed by the publish goes to a callback registered for `n`. -/
theorem C10_publish_frame_local (s : StoreState) (n m : String) (p : NodeDataPatch)
    (now : Nat) (hnm : m ≠ n) :
    ((updateNodeData s n p now).1.nodeData m = s.nodeData m) ∧
    ((updateNodeData s n p now).1.subscribers m = s.subscribers m) ∧
    (∀ cb d, (cb, d) ∈ (updateNodeData s n p now).2 → cb ∈ s.subscribers n) := by
  refine ⟨?_, rfl, ?_⟩
  · simp [updateNodeData, hnm]
  · intro cb d hmem
    simp only [updateNodeData, List.mem_map] at hmem
    obtain ⟨c, hc, hEq⟩ := hmem
    cases hEq
    exact hc

/-- Witness for C10 at the concrete publish of C2's scenario, checked for the
unrelated node id `n2`. -/
theorem C10_publish_frame_local_witness :
    (let s : StoreState :=
      { nodeData := fun k => if k = ("n1" : String) then some { renderedImage := some ("r") } else none
        subscribers := fun k => if k = ("n1" : String) then [7] else [] }
     let p : NodeDataPatch := { enhancedImage := some ("x") }
     (("n2" : String) ≠ ("n1" : String)) ∧
     (((updateNodeData s ("n1") p 5).1.nodeData ("n2") = s.nodeData ("n2")) ∧
      ((updateNodeData s ("n1") p 5).1.subscribers ("n2") = s.subscribers ("n2")) ∧
      (∀ cb d, (cb, d) ∈ (updateNodeData s ("n1") p 5).2 → cb ∈ s.subscribers ("n1")))) := by
  exact ⟨by decide, C10_publish_frame_local _ _ _ _ _ (by decide)⟩

/-- C1: the claim states that a connection whose port schemas differ (or
whose ports are on the same side) is rejected with a SchemaMismatch condition
and the edge set is left unchanged.  Evaluating the code at a concrete
schema-mismatched connection (a GENERATED_VIDEO output dropped on a MODEL_3D
input) shows `onConnect` inserting the edge via the library helper even
though `isValidConnection` evaluates to `false` on the two ports: the
validation predicate is defined but never consulted. -/
theorem C1_mismatched_connection_inserted :
    (let vp : PortConfig :=
       { id := "video-output", label := "Generated Video",
         schema := .GENERATED_VIDEO, position := .right }
     let mp : PortConfig :=
       { id := "model-input", label := "Model", schema := .MODEL_3D, position := .left }
     let s : EditorState :=
       { initialEditor with nodes := initialEditor.nodes ++
           [{ id := "2", type := .sceneRenderer, position := (0, 0), label := "Scene Renderer" },
            { id := "5", type := .aiVideoGenerator, position := (0, 0), label := "Node" }] }
     let c : Connection :=
       { source := "5", sourceHandle := "video-output",
         target := "2", targetHandle := "model-input" }
     ((nodeOutputs .aiVideoGenerator).find? (fun pc => pc.id == "video-output") = some vp) ∧
     ((nodeInputs .sceneRenderer).find? (fun pc => pc.id == "model-input") = some mp) ∧
     (isValidConnection vp mp = false) ∧
     ((onConnect s c).edges =
       [{ id := "reactflow__edge-5video-output-2model-input", source := "5",
          sourceHandle := "video-output", target := "2", targetHandle := "model-input" }])) := by
  decide

/-- C5: once a new edge is attached to the exact origin node/handle of a
provisional detach, the restoration logic of `onConnectEnd` reinserts
nothing: it first checks for a new edge on that origin handle.  Moreover a
successful `onConnect` clears the provisional buffer, so the unconditional
restoration of the menu's `onClose` handler also reinserts nothing once the
buffer is empty. -/
theorem C5_no_restore_after_reconnect (h : HandleRef) (removed eds : List Edge)
    (s s2 : EditorState) (c : Connection)
    (hnew : eds.any (matchesHandle h) = true)
    (h2 : s2.removedEdges = []) :
    (restoreIfNoNewConnection h removed eds = eds) ∧
    ((onConnect s c).removedEdges = []) ∧
    ((contextMenuClose s2).edges = s2.edges) := by
  refine ⟨?_, rfl, ?_⟩
  · simp [restoreIfNoNewConnection, hnew]
  · simp [contextMenuClose, h2]

/-- Witness for C5: a new edge from node 1's model output to node 3 exists,
so the buffered old edge to node 2 is not reinserted. -/
theorem C5_no_restore_after_reconnect_witness :
    (let h : HandleRef := { nodeId := "1", handleId := "model-output", handleType := .source }
     let old : Edge := { id := "e0", source := "1", sourceHandle := "model-output",
                         target := "2", targetHandle := "model-input" }
     let newE : Edge := { id := "e1", source := "1", sourceHandle := "model-output",
                          target := "3", targetHandle := "model-input" }
     let c : Connection := { source := "1", sourceHandle := "model-output",
                             target := "3", targetHandle := "model-input" }
     ([newE].any (matchesHandle h) = true) ∧ (initialEditor.removedEdges = []) ∧
     ((restoreIfNoNewConnection h [old] [newE] = [newE]) ∧
      ((onConnect initialEditor c).removedEdges = []) ∧
      ((contextMenuClose initialEditor).edges = initialEditor.edges))) := by
  exact ⟨by decide, by decide,
    C5_no_restore_after_reconnect _ _ _ _ _ _ (by decide) (by decide)⟩

/-- C7: the AI Enhanced Image consumer starts no second enhancement for a
payload whose rendered-image field equals the last processed one, and starts
no computation while one is in flight: both the `handleEnhance` guard and the
subscription callback leave the state's dedup marker and in-flight flag
unchanged and start nothing. -/
theorem C7_dedup_and_inflight_guard (s : CardState) (img : String) (th : String)
    (nd : NodeData)
    (h : s.lastProcessed = some img ∨ s.isEnhancing = true)
    (hnd : nd.renderedImage = some img) :
    (handleEnhanceStart s img = (s, false)) ∧
    ((onSourceUpdate s th nd).2 = false) ∧
    ((onSourceUpdate s th nd).1.lastProcessed = s.lastProcessed) ∧
    ((onSourceUpdate s th nd).1.isEnhancing = s.isEnhancing) := by
  have hguard : ∀ t : CardState, t.lastProcessed = s.lastProcessed →
      t.isEnhancing = s.isEnhancing → handleEnhanceStart t img = (t, false) := by
    intro t h1 h2
    rcases h with h | h
    · have hb : (t.lastProcessed == some img) = true := by
        rw [h1, h]; exact beq_self_eq_true _
      simp [handleEnhanceStart, hb]
    · simp [handleEnhanceStart, h2.trans h]
  obtain ⟨m, sk, ri, ei, ts⟩ := nd
  simp only at hnd
  subst hnd
  have hupd : (onSourceUpdate s th ⟨m, sk, some img, ei, ts⟩ =
        ({ s with baseImage := some img }, false)) ∨
      (onSourceUpdate s th ⟨m, sk, some img, ei, ts⟩ = (s, false)) := by
    simp only [onSourceUpdate]
    by_cases hc : (img != "" && th == "rendered-image-input") = true
    · rw [if_pos hc]
      by_cases hl : ({ s with baseImage := some img } : CardState).lastProcessed ≠ some img
      · rw [if_pos hl]; left; exact hguard _ rfl rfl
      · rw [if_neg hl]; left; rfl
    · rw [if_neg hc]; right; rfl
  refine ⟨hguard s rfl rfl, ?_, ?_, ?_⟩ <;> rcases hupd with hE | hE <;> rw [hE]

/-- Witness for C7: the card has already processed image `i` and a payload
carrying the same image is delivered again over the rendered-image edge. -/
theorem C7_dedup_and_inflight_guard_witness :
    (let s : CardState := { lastProcessed := some ("i") }
     let nd : NodeData := { renderedImage := some ("i") }
     (s.lastProcessed = some ("i") ∨ s.isEnhancing = true) ∧
     (nd.renderedImage = some ("i")) ∧
     ((handleEnhanceStart s ("i") = (s, false)) ∧
      ((onSourceUpdate s ("rendered-image-input") nd).2 = false) ∧
      ((onSourceUpdate s ("rendered-image-input") nd).1.lastProcessed = s.lastProcessed) ∧
      ((onSourceUpdate s ("rendered-image-input") nd).1.isEnhancing = s.isEnhancing))) := by
  exact ⟨by decide, by decide,
    C7_dedup_and_inflight_guard _ _ _ _ (by decide) (by decide)⟩

/-- C4: the claim states that dismissing the drag-opened menu without
selecting a node restores the edge set exactly.  Evaluating the code on the
scenario shows otherwise: the drag from the connected input detaches the edge
into the buffer, releasing over empty canvas opens the menu, and dismissal
goes through `onPaneClick`, which only closes the menu — the edge stays
detached and the buffer stays full.  The restoration logic lives in the
`onClose` prop of the menu, but the `ContextMenu` component invokes that prop
only from `handleAddNode` after a node type has been selected; had it run on
dismissal it would indeed have restored the edge (last conjunct). -/
theorem C4_dismissal_does_not_restore :
    (let e0 : Edge := { id := "e0", source := "1", sourceHandle := "model-output",
                        target := "2", targetHandle := "model-input" }
     let s : EditorState := { initialEditor with edges := [e0] }
     let h : HandleRef := { nodeId := "2", handleId := "model-input", handleType := .target }
     let s1 := onConnectStart s h
     let s2 := onConnectEnd s1 .emptyCanvas (7, 8)
     let s3 := onPaneClick s2 false
     ((s1.edges = []) ∧ (s1.removedEdges = [e0])) ∧
     ((s2.contextMenu ≠ none) ∧ (s2.edges = []) ∧ (s2.removedEdges = [e0])) ∧
     ((s3.contextMenu = none) ∧ (s3.edges = []) ∧ (s3.removedEdges = [e0])) ∧
     (s3.edges ≠ s.edges) ∧
     ((contextMenuClose s2).edges = [e0])) := by
  decide

/-- C6: the claim states the synthesized edge connects the drag origin to the
complementary port of matching schema on the new node, chosen by schema match
against the per-type port registry.  Evaluating the code on a reachable
selection shows otherwise: a drag from a RENDERED_IMAGE output opens a menu
offering `aiImageEnhancer`, but selecting it synthesizes the edge toward the
hardcoded handle id `rendered-image-input`, which names no port of that card
— its RENDERED_IMAGE input is `base-image-input`.  Node creation at the drop
position, single-edge synthesis and buffer discard do behave as claimed. -/
theorem C6_synthesized_handle_not_in_registry :
    (let sh : SourceHandleInfo := { nodeId := "2", handleId := "render-output",
                                    handleType := .source, schema := some .RENDERED_IMAGE }
     let s0 : EditorState :=
       { initialEditor with
           nodes := initialEditor.nodes ++
             [{ id := "2", type := .sceneRenderer, position := (0, 0), label := "Scene Renderer" }],
           contextMenu := some { x := 300, y := 200, sourceHandle := some sh } }
     let s1 := handleAddNode s0 .aiImageEnhancer 1000
     (schemaFromHandleId ("render-output") = some .RENDERED_IMAGE) ∧
     (NodeType.aiImageEnhancer ∈ getCompatibleNodeTypes (some sh)) ∧
     (s1.nodes.map GraphNode.id = ["1", "2", "1000"]) ∧
     ((s1.nodes.getLast?).map GraphNode.position = some ((200 : Int), (150 : Int))) ∧
     (s1.edges = [{ id := "edge-1000", source := "2", sourceHandle := "render-output",
                    target := "1000", targetHandle := "rendered-image-input" }]) ∧
     (s1.removedEdges = []) ∧ (s1.contextMenu = none) ∧
     ((nodeInputs .aiImageEnhancer).map PortConfig.id = ["base-image-input"]) ∧
     ((nodeInputs .aiImageEnhancer).filter (fun p => p.id == "rendered-image-input") = [])) := by
  decide

/-- C8: the claim states a failed enhancement clears the dedup marker so the
same payload can be retried.  Evaluating the code on a failing run (missing
API key) shows `enhanceSceneWithAI` reporting the failure as a returned
`success = false` value — it never throws, so the `catch` block that clears
the marker does not run: after the run the marker still holds the failed
image, a retry of the same payload starts nothing, and nothing is published
upward through the data store. -/
theorem C8_failed_enhancement_keeps_dedup_marker :
    (let req : ImageToImageRequest :=
       { baseImage := "img1", prompt := enhancePrompt, provider := some ("gemini") }
     let r := enhanceSceneWithAI { geminiApiKey := none } req false
       (Except.error ("x")) (Except.error ("x"))
     let s1 := (handleEnhanceStart {} ("img1")).1
     let s2 := handleEnhanceFinish ("nodeA") s1 r
     ((handleEnhanceStart {} ("img1")).2 = true) ∧
     (r.success = false) ∧ (r.error = some ("Gemini API key not found")) ∧
     (s2.1.lastProcessed = some ("img1")) ∧ (s2.1.isEnhancing = false) ∧ (s2.2 = []) ∧
     (handleEnhanceStart s2.1 ("img1") = (s2.1, false))) := by
  decide

/-- C9 counterexample: node and edge ids are the decimal rendering of the
millisecond clock, so two `addNode` calls within the same millisecond produce
the same node id (a graph holding two distinct nodes both with id `"1000"`),
and two distinct edge syntheses within the same millisecond produce the same
edge id `"edge-1000"`. -/
theorem C9_same_millisecond_ids_collide :
    ((let s1 := addNode initialEditor .sceneRenderer (0, 0) 1000
      let s2 := addNode s1 .videoPlayer (50, 60) 1000
      (s2.nodes.map GraphNode.id = ["1", "1000", "1000"]) ∧
      ¬ (s2.nodes.map GraphNode.id).Nodup) ∧
     (let shA : SourceHandleInfo := { nodeId := "1", handleId := "model-output",
                                      handleType := .source, schema := some .MODEL_3D }
      let mA : ContextMenuState := { x := 10, y := 10, sourceHandle := some shA }
      let sA := handleAddNode { initialEditor with contextMenu := some mA } .sceneRenderer 1000
      let shB : SourceHandleInfo := { nodeId := "9", handleId := "render-output",
                                      handleType := .source, schema := some .RENDERED_IMAGE }
      let mB : ContextMenuState := { x := 20, y := 30, sourceHandle := some shB }
      let sB := handleAddNode { initialEditor with contextMenu := some mB } .aiEnhancedImage 1000
      (sA.edges.map Edge.id = ["edge-1000"]) ∧ (sB.edges.map Edge.id = ["edge-1000"]) ∧
      (sA.edges ≠ sB.edges))) := by
  decide

/-- Fuel-indexed characterization of the core decimal printer used by
`Nat.repr`: with sufficient fuel it emits the reversed decimal digits in
front of the accumulator. -/
theorem toDigitsCore_eq_digits (fuel : Nat) : ∀ (n : Nat) (acc : List Char),
    n ≠ 0 → n ≤ fuel →
    Nat.toDigitsCore 10 fuel n acc =
      ((Nat.digits 10 n).map Nat.digitChar).reverse ++ acc := by
  induction fuel with
  | zero => intro n acc h0 hf; omega
  | succ fuel ih =>
    intro n acc h0 hf
    rw [Nat.digits_def' (by norm_num : (1 : ℕ) < 10) (Nat.pos_of_ne_zero h0)]
    by_cases hdiv : n / 10 = 0
    · rw [hdiv, Nat.digits_zero]
      simp [Nat.toDigitsCore, hdiv]
    · have hlt : n / 10 < n := Nat.div_lt_self (Nat.pos_of_ne_zero h0) (by norm_num)
      have hle : n / 10 ≤ fuel := by omega
      simp only [Nat.toDigitsCore, hdiv, if_false]
      rw [ih (n / 10) _ hdiv hle]
      simp

/-- `Nat.repr` rendered through `reprDigits`. -/
theorem repr_eq_reprDigits (n : Nat) : Nat.repr n = (reprDigits n).asString := by
  by_cases h0 : n = 0
  · subst h0; rfl
  · have hdef : Nat.repr n = (Nat.toDigitsCore 10 (n + 1) n []).asString := rfl
    rw [hdef, toDigitsCore_eq_digits (n + 1) n [] h0 (Nat.le_succ n)]
    simp [reprDigits, h0]

/-- Decimal digit characters are distinct for distinct digits. -/
theorem digitChar_inj_lt10 : ∀ a < 10, ∀ b < 10,
    Nat.digitChar a = Nat.digitChar b → a = b := by decide

/-- Mapping `Nat.digitChar` over digit lists (entries below 10) is injective. -/
theorem map_digitChar_injOn : ∀ (l1 l2 : List Nat),
    (∀ x ∈ l1, x < 10) → (∀ x ∈ l2, x < 10) →
    l1.map Nat.digitChar = l2.map Nat.digitChar → l1 = l2 := by
  intro l1
  induction l1 with
  | nil =>
    intro l2 _ _ hmap
    cases l2 with
    | nil => rfl
    | cons b t2 => simp at hmap
  | cons a t ih =>
    intro l2 h1 h2 hmap
    cases l2 with
    | nil => simp at hmap
    | cons b t2 =>
      simp only [List.map_cons, List.cons.injEq] at hmap
      have ha : a < 10 := h1 a (List.mem_cons_self a t)
      have hb : b < 10 := h2 b (List.mem_cons_self b t2)
      have hab : a = b := digitChar_inj_lt10 a ha b hb hmap.1
      have ht : t = t2 := ih t2 (fun x hx => h1 x (List.mem_cons_of_mem a hx))
        (fun x hx => h2 x (List.mem_cons_of_mem b hx)) hmap.2
      rw [hab, ht]

/-- The decimal digit-list rendering is injective. -/
theorem reprDigits_injective : Function.Injective reprDigits := by
  have digitsEq : ∀ k : Nat, k ≠ 0 →
      reprDigits k = ((Nat.digits 10 k).map Nat.digitChar).reverse := by
    intro k hk; simp [reprDigits, hk]
  have zeroCase : ∀ k : Nat, k ≠ 0 → reprDigits k ≠ reprDigits 0 := by
    intro k hk hEq
    rw [digitsEq k hk] at hEq
    have hEq2 : (Nat.digits 10 k).map Nat.digitChar = [Nat.digitChar 0] := by
      have hrev := congrArg List.reverse hEq
      simpa [reprDigits] using hrev
    have hd : Nat.digits 10 k = [0] :=
      map_digitChar_injOn _ _ (fun x hx => Nat.digits_lt_base (by norm_num) hx)
        (by intro x hx; simp at hx; omega) hEq2
    have hof := Nat.ofDigits_digits 10 k
    rw [hd] at hof
    simp [Nat.ofDigits_cons, Nat.ofDigits_nil] at hof
    exact hk hof.symm
  intro m n hmn
  by_cases hm : m = 0 <;> by_cases hn : n = 0
  · rw [hm, hn]
  · subst hm; exact ((zeroCase n hn) hmn.symm).elim
  · subst hn; exact ((zeroCase m hm) hmn).elim
  · rw [digitsEq m hm, digitsEq n hn] at hmn
    have h1 := List.reverse_injective hmn
    have h2 := map_digitChar_injOn _ _ (fun x hx => Nat.digits_lt_base (by norm_num) hx)
      (fun x hx => Nat.digits_lt_base (by norm_num) hx) h1
    have hm2 := Nat.ofDigits_digits 10 m
    have hn2 := Nat.ofDigits_digits 10 n
    rw [h2] at hm2
    exact hm2.symm.trans hn2

/-- The decimal rendering of naturals is injective. -/
theorem natRepr_injective : Function.Injective Nat.repr := by
  intro m n hmn
  apply reprDigits_injective
  rw [repr_eq_reprDigits m, repr_eq_reprDigits n] at hmn
  have hdata := congrArg String.data hmn
  simpa [List.asString] using hdata

/-- C9 amended: ids are derived solely from the millisecond timestamp, so
node ids and edge ids generated at distinct timestamps are distinct; two
creations within the same millisecond collide. -/
theorem C9_amended_distinct_times_distinct_ids (t1 t2 : Nat) (h : t1 ≠ t2) :
    genNodeId t1 ≠ genNodeId t2 ∧ genEdgeId t1 ≠ genEdgeId t2 := by
  have hr : Nat.repr t1 ≠ Nat.repr t2 := fun hEq => h (natRepr_injective hEq)
  refine ⟨hr, ?_⟩
  intro hEq
  apply hr
  have hdata := congrArg String.data hEq
  simp only [genEdgeId, String.data_append] at hdata
  exact String.ext (List.append_cancel_left hdata)

/-- Witness for C9 amended at the timestamps 1 and 2. -/
theorem C9_amended_distinct_times_distinct_ids_witness :
    ((1 : Nat) ≠ 2) ∧ ((genNodeId 1 ≠ genNodeId 2) ∧ (genEdgeId 1 ≠ genEdgeId 2)) := by
  exact ⟨by decide, C9_amended_distinct_times_distinct_ids 1 2 (by decide)⟩
